import Mathlib

/-!
# Verification of the tradooor trading engine (spectre / ninja-trader)

Shallow embedding of the position registry, exit-decision logic, trader
orchestrator buy paths, prepared-transaction cache and price computation of
the `estepeen/tradooor` repository (apps `spectre` and `ninja-trader`).

Conventions of the embedding:
* Rust `f64` values are embedded as exact rationals (`ℚ`); the claims under
  scrutiny are algebraic relations between the computed quantities, and the
  source derives all of them by field arithmetic.
* Rust `u64`/`u8` counters are embedded as `ℕ`; `x as u64` on a
  non-negative float is `Int.floor` followed by `Int.toNat` (Rust saturates
  negative casts at zero, which `Int.toNat` also does).
* `std::time::Instant` instants are embedded as `ℕ` seconds and
  `chrono::DateTime<Utc>` instants as `ℤ` seconds; functions that read the
  clock take the current instant as an explicit argument.
* The `HashMap`-backed registries are embedded as `String → Option _` maps,
  which is the key-uniqueness semantics of the Rust `HashMap`.
* Fallible Rust code returning `Result<T>` is embedded as `Except Unit T`;
  network calls are modelled by explicit per-attempt environments that
  supply each external call's outcome.
* Log output, wall-clock latency fields (`latency_ms`, `timestamp`) and the
  raw transaction signing bytes are not modelled: no claim mentions them.
-/

namespace Tradooor

namespace Spectre

/-- Exit decision returned by `Position::check_exit`
(src/apps/spectre/src/position/mod.rs, `enum ExitReason`). -/
inductive ExitReason where
  | stopLoss
  | takeProfit
  | manual
  | scaledTakeProfit (stage : ℕ) (sell_percent : ℚ) (trigger_percent : ℚ)
  deriving DecidableEq, Repr

/-- Active position being monitored for SL/TP
(src/apps/spectre/src/position/mod.rs, `struct Position`).
`entry_time` is the creation instant in seconds (`chrono::DateTime<Utc>`). -/
structure Position where
  token_mint : String
  token_symbol : String
  entry_price : ℚ
  amount_tokens : ℕ
  amount_sol_invested : ℚ
  stop_loss_percent : ℚ
  take_profit_percent : ℚ
  stop_loss_price : ℚ
  take_profit_price : ℚ
  entry_time : ℤ
  tx_signature : String
  failed_sell_attempts : ℕ
  is_unsellable : Bool
  is_pumpfun : Bool
  price_synced : Bool
  high_price : ℚ
  signal_type : String
  scaled_exit_stage : ℕ
  original_amount_tokens : ℕ
  deriving DecidableEq, Repr

namespace Position

/-- `Position::new_with_signal_type` (position/mod.rs lines 74-129).
`now` is the creation instant (`chrono::Utc::now()`). -/
def new_with_signal_type (token_mint token_symbol : String) (entry_price : ℚ)
    (amount_tokens : ℕ) (amount_sol_invested : ℚ)
    (stop_loss_percent take_profit_percent : ℚ) (tx_signature : String)
    (is_pumpfun : Bool) (signal_type : String) (now : ℤ) : Position :=
  -- SL comes as positive number (e.g., 25 means -25% from entry)
  let sl_multiplier : ℚ := 1 - |stop_loss_percent| / 100
  let stop_loss_price := entry_price * sl_multiplier
  -- TP comes as positive number (e.g., 50 means +50% from entry)
  let take_profit_price := entry_price * (1 + |take_profit_percent| / 100)
  { token_mint := token_mint
    token_symbol := token_symbol
    entry_price := entry_price
    amount_tokens := amount_tokens
    amount_sol_invested := amount_sol_invested
    stop_loss_percent := stop_loss_percent
    take_profit_percent := take_profit_percent
    stop_loss_price := stop_loss_price
    take_profit_price := take_profit_price
    entry_time := now
    tx_signature := tx_signature
    failed_sell_attempts := 0
    is_unsellable := false
    is_pumpfun := is_pumpfun
    price_synced := false
    high_price := entry_price
    signal_type := signal_type
    scaled_exit_stage := 0
    original_amount_tokens := amount_tokens }

/-- `Position::new` (position/mod.rs lines 49-72): delegates with an empty
signal type. -/
def new (token_mint token_symbol : String) (entry_price : ℚ)
    (amount_tokens : ℕ) (amount_sol_invested : ℚ)
    (stop_loss_percent take_profit_percent : ℚ) (tx_signature : String)
    (is_pumpfun : Bool) (now : ℤ) : Position :=
  new_with_signal_type token_mint token_symbol entry_price amount_tokens
    amount_sol_invested stop_loss_percent take_profit_percent tx_signature
    is_pumpfun "" now

/-- `Position::PRICE_SYNC_WAIT_SECS` (position/mod.rs line 133). -/
def PRICE_SYNC_WAIT_SECS : ℤ := 3

/-- `Position::is_waiting_for_price_sync` (position/mod.rs lines 137-140).
`now` is the current instant; `elapsed.num_seconds()` is `now - entry_time`. -/
def is_waiting_for_price_sync (p : Position) (now : ℤ) : Bool :=
  now - p.entry_time < PRICE_SYNC_WAIT_SECS

/-- `Position::sync_with_real_price` (position/mod.rs lines 144-168). -/
def sync_with_real_price (p : Position) (real_price : ℚ) : Position :=
  if p.price_synced then p  -- Already synced, don't update again
  else
    let sl_multiplier : ℚ := 1 - |p.stop_loss_percent| / 100
    { p with
      entry_price := real_price
      high_price := real_price
      price_synced := true
      stop_loss_price := real_price * sl_multiplier
      take_profit_price := real_price * (1 + |p.take_profit_percent| / 100) }

/-- `Position::update_high_price` (position/mod.rs lines 171-175). -/
def update_high_price (p : Position) (current_price : ℚ) : Position :=
  if current_price > p.high_price then { p with high_price := current_price }
  else p

/-- `Position::needs_price_sync` (position/mod.rs lines 178-181). -/
def needs_price_sync (p : Position) : Bool :=
  p.is_pumpfun && !p.price_synced

/-- `Position::NINJA_TP1_PERCENT` (position/mod.rs line 184). -/
def NINJA_TP1_PERCENT : ℚ := 30
/-- `Position::NINJA_TP2_PERCENT` (position/mod.rs line 185). -/
def NINJA_TP2_PERCENT : ℚ := 50
/-- `Position::NINJA_TP3_PERCENT` (position/mod.rs line 186). -/
def NINJA_TP3_PERCENT : ℚ := 80
/-- `Position::NINJA_TP1_SELL_PERCENT` (position/mod.rs line 188). -/
def NINJA_TP1_SELL_PERCENT : ℚ := 80
/-- `Position::NINJA_TP2_SELL_PERCENT` (position/mod.rs line 189). -/
def NINJA_TP2_SELL_PERCENT : ℚ := 75
/-- `Position::NINJA_TP3_SELL_PERCENT` (position/mod.rs line 190). -/
def NINJA_TP3_SELL_PERCENT : ℚ := 100

/-- `Position::is_ninja` (position/mod.rs lines 193-195). -/
def is_ninja (p : Position) : Bool :=
  p.signal_type = "ninja"

/-- `Position::check_exit` (position/mod.rs lines 200-255). Note that the
source consults `needs_price_sync` only; it never reads the clock, so the
embedding takes no time argument. -/
def check_exit (p : Position) (current_price : ℚ) : Option ExitReason :=
  if p.is_unsellable then none
  -- Don't check exits until we've synced price from PumpPortal
  else if p.needs_price_sync then none
  -- Stop loss always triggers full exit
  else if current_price ≤ p.stop_loss_price then some .stopLoss
  -- For NINJA signals, use scaled exits
  else if p.is_ninja then
    let profit_percent := (current_price / p.entry_price - 1) * 100
    match p.scaled_exit_stage with
    | 0 =>
      if profit_percent ≥ NINJA_TP1_PERCENT then
        some (.scaledTakeProfit 1 NINJA_TP1_SELL_PERCENT NINJA_TP1_PERCENT)
      else none
    | 1 =>
      if profit_percent ≥ NINJA_TP2_PERCENT then
        some (.scaledTakeProfit 2 NINJA_TP2_SELL_PERCENT NINJA_TP2_PERCENT)
      else none
    | 2 =>
      if profit_percent ≥ NINJA_TP3_PERCENT then
        some (.scaledTakeProfit 3 NINJA_TP3_SELL_PERCENT NINJA_TP3_PERCENT)
      else none
    | _ => none
  -- Standard exit: full position at TP
  else if current_price ≥ p.take_profit_price then some .takeProfit
  else none

/-- `Position::advance_scaled_exit` (position/mod.rs lines 259-274).
Returns the mutated position and the amount of tokens to sell.
`(x as f64 * percent / 100.0) as u64` truncates and saturates negatives at
zero, which `Int.floor` + `Int.toNat` reproduces. -/
def advance_scaled_exit (p : Position) (stage : ℕ) (sell_percent : ℚ) :
    Position × ℕ :=
  let tokens_to_sell : ℕ :=
    (Int.floor ((p.amount_tokens : ℚ) * sell_percent / 100)).toNat
  ({ p with
      amount_tokens := p.amount_tokens - tokens_to_sell
      scaled_exit_stage := stage },
   tokens_to_sell)

/-- `Position::is_fully_closed` (position/mod.rs lines 277-279). -/
def is_fully_closed (p : Position) : Bool :=
  p.amount_tokens = 0

end Position

/-- The position registry's map. The Rust `PositionManager` wraps a
`HashMap<String, Position>` behind a reader/writer lock
(position/mod.rs lines 347-349); a `HashMap` holds at most one value per
key, which the function-map embedding makes structural. The lock
serializes the mutations below; each operation is embedded as the pure
state transformer it performs under the write lock. -/
abbrev PositionMap := String → Option Position

namespace PositionManager

/-- Empty registry (`PositionManager::new`, position/mod.rs lines 352-356). -/
def new : PositionMap := fun _ => none

/-- Key update helper: the effect of `HashMap::insert`. -/
def insert (m : PositionMap) (key : String) (p : Position) : PositionMap :=
  fun t => if t = key then some p else m t

/-- `PositionManager::add_position` (position/mod.rs lines 358-361). -/
def add_position (m : PositionMap) (p : Position) : PositionMap :=
  insert m p.token_mint p

/-- `PositionManager::remove_position` (position/mod.rs lines 363-366). -/
def remove_position (m : PositionMap) (token_mint : String) :
    PositionMap × Option Position :=
  (fun t => if t = token_mint then none else m t, m token_mint)

/-- `PositionManager::get_position` (position/mod.rs lines 368-371). -/
def get_position (m : PositionMap) (token_mint : String) : Option Position :=
  m token_mint

/-- `PositionManager::has_position` (position/mod.rs lines 378-381). -/
def has_position (m : PositionMap) (token_mint : String) : Bool :=
  (m token_mint).isSome

/-- `MAX_SELL_FAILURES` (position/mod.rs line 391). -/
def MAX_SELL_FAILURES : ℕ := 3

/-- `PositionManager::increment_failed_sell` (position/mod.rs lines 390-407).
Returns the updated registry and whether the position was marked
unsellable. -/
def increment_failed_sell (m : PositionMap) (token_mint : String) :
    PositionMap × Bool :=
  match m token_mint with
  | some p =>
    let p' := { p with failed_sell_attempts := p.failed_sell_attempts + 1 }
    if p'.failed_sell_attempts ≥ MAX_SELL_FAILURES then
      (insert m token_mint { p' with is_unsellable := true }, true)
    else
      (insert m token_mint p', false)
  | none => (m, false)

/-- `PositionManager::mark_unsellable` (position/mod.rs lines 410-419).
The `reason` argument is only logged and is dropped by the embedding. -/
def mark_unsellable (m : PositionMap) (token_mint : String) : PositionMap :=
  match m token_mint with
  | some p => insert m token_mint { p with is_unsellable := true }
  | none => m

/-- `PositionManager::sync_entry_price` (position/mod.rs lines 424-433). -/
def sync_entry_price (m : PositionMap) (token_mint : String)
    (real_price : ℚ) : PositionMap × Bool :=
  match m token_mint with
  | some p =>
    if p.needs_price_sync then
      (insert m token_mint (p.sync_with_real_price real_price), true)
    else (m, false)
  | none => (m, false)

/-- `PositionManager::update_high_price` (position/mod.rs lines 436-441). -/
def update_high_price (m : PositionMap) (token_mint : String)
    (current_price : ℚ) : PositionMap :=
  match m token_mint with
  | some p => insert m token_mint (p.update_high_price current_price)
  | none => m

/-- `PositionManager::advance_scaled_exit` (position/mod.rs lines 445-453).
Returns the updated registry and `Some (tokens_to_sell, fully_closed)` when
the position exists. -/
def advance_scaled_exit (m : PositionMap) (token_mint : String) (stage : ℕ)
    (sell_percent : ℚ) : PositionMap × Option (ℕ × Bool) :=
  match m token_mint with
  | some p =>
    let r := p.advance_scaled_exit stage sell_percent
    (insert m token_mint r.1, some (r.2, r.1.is_fully_closed))
  | none => (m, none)

/-- `PositionManager::update_tokens_after_sell` (position/mod.rs
lines 456-467). -/
def update_tokens_after_sell (m : PositionMap) (token_mint : String)
    (tokens_sold : ℕ) : PositionMap :=
  match m token_mint with
  | some p =>
    insert m token_mint { p with amount_tokens := p.amount_tokens - tokens_sold }
  | none => m

end PositionManager

/-! ## PumpPortal price computation (src/apps/spectre/src/pumpportal/mod.rs) -/

/-- Trade event received on the PumpPortal websocket
(pumpportal/mod.rs, `struct TradeEvent`). -/
structure TradeEvent where
  signature : Option String
  mint : String
  sol_amount : Option ℚ
  token_amount : Option ℚ
  is_buy : Option Bool
  user : Option String
  timestamp : Option ℤ
  virtual_sol_reserves : Option ℚ
  virtual_token_reserves : Option ℚ
  market_cap_sol : Option ℚ
  deriving DecidableEq, Repr

/-- Price update produced from trade events
(pumpportal/mod.rs, `struct PriceUpdate`). -/
structure PriceUpdate where
  token_mint : String
  price_usd : ℚ
  market_cap_usd : ℚ
  timestamp : ℤ
  deriving DecidableEq, Repr

namespace PumpPortalClient

/-- First branch of `PumpPortalClient::calculate_price`
(pumpportal/mod.rs lines 209-233): price from the virtual bonding-curve
reserves, available only when both reserve fields are present and the token
reserve is positive. -/
def calculate_price_from_reserves (trade : TradeEvent) (sol_usd : ℚ)
    (now : ℤ) : Option PriceUpdate :=
  match trade.virtual_sol_reserves, trade.virtual_token_reserves with
  | some sol_reserves, some token_reserves =>
    if 0 < token_reserves then
      let price_sol := sol_reserves / token_reserves
      let price_usd := price_sol * sol_usd
      some { token_mint := trade.mint
             price_usd := price_usd
             market_cap_usd := price_usd * 1000000000
             timestamp := trade.timestamp.getD now }
    else none
  | _, _ => none

/-- Fallback branch of `PumpPortalClient::calculate_price`
(pumpportal/mod.rs lines 235-249): price from the trade amounts, available
only when both amounts are present and the token amount is positive. -/
def calculate_price_from_amounts (trade : TradeEvent) (sol_usd : ℚ)
    (now : ℤ) : Option PriceUpdate :=
  match trade.sol_amount, trade.token_amount with
  | some sol_amount, some token_amount =>
    if 0 < token_amount then
      let price_sol := sol_amount / token_amount
      let price_usd := price_sol * sol_usd
      some { token_mint := trade.mint
             price_usd := price_usd
             market_cap_usd := price_usd * 1000000000
             timestamp := trade.timestamp.getD now }
    else none
  | _, _ => none

/-- `PumpPortalClient::calculate_price` (pumpportal/mod.rs lines 204-251):
try the virtual-reserve computation first, fall back to the trade amounts,
and return `none` when neither applies. `sol_usd` is the current value of
the shared SOL/USD cell; `now` models `chrono::Utc::now().timestamp()`
used when the event carries no timestamp. -/
def calculate_price (trade : TradeEvent) (sol_usd : ℚ) (now : ℤ) :
    Option PriceUpdate :=
  match calculate_price_from_reserves trade sol_usd now with
  | some update => some update
  | none => calculate_price_from_amounts trade sol_usd now

end PumpPortalClient

/-! ## Trader orchestrator (src/apps/spectre/src/trader.rs)

The spectre crate declares `mod redis;` but that module's file is not part
of the sources at hand; the shapes of `SpectreSignal` and `TradeResult`
below are reconstructed from every field read or written in trader.rs
together with the external-interface description (signal fields and result
fields). Wall-clock-only fields (`latency_ms`, `timestamp`) are omitted. -/

/-- Trading configuration fields consumed by the buy paths
(`Config`, src/apps/spectre/src/config/mod.rs). -/
structure Config where
  trade_amount_sol : ℚ
  slippage_bps : ℕ
  jito_tip_lamports : ℕ
  deriving Repr

/-- Entry signal consumed by `SpectreTrader::execute_buy`
(fields as read in trader.rs from `crate::redis::SpectreSignal`). -/
structure SpectreSignal where
  token_mint : String
  token_symbol : String
  signal_type : String
  strength : String
  market_cap_usd : Option ℚ
  liquidity_usd : Option ℚ
  entry_price_usd : Option ℚ
  stop_loss_percent : ℚ
  take_profit_percent : ℚ
  wallets : List String
  timestamp : String
  deriving Repr

/-- The distinct error messages a buy-path `TradeResult` can carry
(the exact strings formatted in trader.rs). `priceJumped change max`
stands for `format!("Price jumped {:.1}% > {}% max", change, max)`
(trader.rs line 398); `alreadyHavePosition` stands for the literal
`"Already have position"` (trader.rs line 163). -/
inductive TradeError where
  | alreadyHavePosition
  | pumpPortalFailed
  | signFailed
  | txFailed
  | quoteFailed
  | blockhashFailed
  | swapTxFailed
  | maxAttemptsExhausted
  | priceJumped (change : ℚ) (max : ℚ)
  deriving DecidableEq, Repr

/-- Outcome record published back to the queue
(fields as written in trader.rs for `crate::redis::TradeResult`;
`latency_ms` and `timestamp` are wall-clock-only and not modelled). -/
structure TradeResult where
  success : Bool
  token_mint : String
  token_symbol : String
  action : String
  amount_sol : ℚ
  amount_tokens : Option ℚ
  price_per_token : Option ℚ
  tx_signature : Option String
  error : Option TradeError
  signal_type : Option String
  signal_strength : Option String
  market_cap_usd : Option ℚ
  liquidity_usd : Option ℚ
  entry_price_usd : Option ℚ
  stop_loss_percent : Option ℚ
  take_profit_percent : Option ℚ
  trigger_wallets : Option (List String)
  attempt_number : ℕ
  price_at_signal : Option ℚ
  price_at_trade : Option ℚ
  price_change_percent : Option ℚ
  signal_timestamp : Option String
  deriving Repr

/-- Prepared transaction ready for immediate execution
(trader.rs, `struct PreparedTx`). `created_at` is the creation instant in
seconds (`std::time::Instant`). -/
structure PreparedTx where
  token_mint : String
  token_symbol : String
  tx_bytes : List ℕ
  created_at : ℕ
  market_cap_usd : Option ℚ
  entry_price_usd : Option ℚ
  deriving DecidableEq, Repr

/-- Cache for prepared transactions (trader.rs, `struct PreparedTxCache`). -/
structure PreparedTxCache where
  entries : String → Option PreparedTx
  expiry_secs : ℕ

namespace PreparedTxCache

/-- `PreparedTxCache::new` (trader.rs lines 40-45). -/
def new (expiry_secs : ℕ) : PreparedTxCache :=
  { entries := fun _ => none, expiry_secs := expiry_secs }

/-- `PreparedTxCache::insert` (trader.rs lines 47-55). -/
def insert (c : PreparedTxCache) (token_mint : String) (prepared : PreparedTx) :
    PreparedTxCache :=
  { c with entries := fun t => if t = token_mint then some prepared else c.entries t }

/-- `PreparedTxCache::get` (trader.rs lines 57-66): return the entry only
when `created_at.elapsed().as_secs() < expiry_secs`; `now` is the current
instant in seconds, so the elapsed whole seconds are `now - created_at`. -/
def get (c : PreparedTxCache) (now : ℕ) (token_mint : String) :
    Option PreparedTx :=
  match c.entries token_mint with
  | some prepared =>
    if now - prepared.created_at < c.expiry_secs then some prepared else none
  | none => none

/-- `PreparedTxCache::remove` (trader.rs lines 68-71). -/
def remove (c : PreparedTxCache) (token_mint : String) : PreparedTxCache :=
  { c with entries := fun t => if t = token_mint then none else c.entries t }

end PreparedTxCache

/-- The expiry passed by `SpectreTrader::new` when constructing the cache:
`PreparedTxCache::new(60)` (trader.rs line 103). -/
def SpectreTrader.PREPARED_TX_EXPIRY_SECS : ℕ := 60

/-- The mutable state a `SpectreTrader` threads through its buy paths:
the position registry and the prepared-transaction cache. -/
structure TraderState where
  positions : PositionMap
  prepared_tx_cache : PreparedTxCache

namespace SpectreTrader

/-- `SpectreTrader::create_error_result` (trader.rs lines 556-583). -/
def create_error_result (cfg : Config) (signal : SpectreSignal)
    (error : TradeError) (attempt : ℕ) (current_price : Option ℚ) :
    TradeResult :=
  { success := false
    token_mint := signal.token_mint
    token_symbol := signal.token_symbol
    action := "buy"
    amount_sol := cfg.trade_amount_sol
    amount_tokens := none
    price_per_token := none
    tx_signature := none
    error := some error
    signal_type := some signal.signal_type
    signal_strength := some signal.strength
    market_cap_usd := signal.market_cap_usd
    liquidity_usd := signal.liquidity_usd
    entry_price_usd := signal.entry_price_usd
    stop_loss_percent := some signal.stop_loss_percent
    take_profit_percent := some signal.take_profit_percent
    trigger_wallets := some signal.wallets
    attempt_number := attempt
    price_at_signal := signal.entry_price_usd
    price_at_trade := current_price
    price_change_percent := none
    signal_timestamp := some signal.timestamp }

/-- `MAX_ATTEMPTS` of `execute_buy_pumpfun` (trader.rs line 189). -/
def PUMPFUN_MAX_ATTEMPTS : ℕ := 2
/-- `MAX_ATTEMPTS` of `execute_buy_jupiter` (trader.rs line 333). -/
def JUPITER_MAX_ATTEMPTS : ℕ := 2
/-- `MAX_PRICE_CHANGE_PERCENT` of `execute_buy_jupiter` (trader.rs line 334). -/
def MAX_PRICE_CHANGE_PERCENT : ℚ := 30

/-- Jupiter quote as consumed by `execute_buy_jupiter`: the embedding keeps
the `out_amount` after `quote.out_amount.parse().unwrap_or(0)`
(trader.rs line 364). -/
structure JupQuote where
  out_amount : ℕ
  deriving DecidableEq, Repr

/-- Environment of one `execute_buy_jupiter` loop iteration: the outcomes
of the external calls made during that attempt. `quote = none` models a
failed quote request; `submit = some id` models a submission accepted by
Jito or, failing that, by the RPC fallback. The transaction signing step
(`sign_versioned_transaction`, trader.rs lines 1063-1086) always returns
`Ok`, so it needs no environment field. -/
structure JupAttemptEnv where
  quote : Option JupQuote
  blockhash_ok : Bool
  swap_tx_ok : Bool
  submit : Option String
  deriving Repr

/-- Outcome of one `execute_buy_jupiter` loop iteration: `done` returns
from the function; `retry` hits `continue` when attempts remain and
otherwise returns the carried error result. -/
inductive JupOutcome where
  | done (result : TradeResult) (state : TraderState)
  | retry (error_result : TradeResult)

/-- The failure result returned on a price-jump veto
(trader.rs lines 389-414). -/
def price_jump_result (cfg : Config) (signal : SpectreSignal) (attempt : ℕ)
    (current_price price_change_percent : Option ℚ) (change : ℚ) :
    TradeResult :=
  { success := false
    token_mint := signal.token_mint
    token_symbol := signal.token_symbol
    action := "buy"
    amount_sol := cfg.trade_amount_sol
    amount_tokens := none
    price_per_token := current_price
    tx_signature := none
    error := some (.priceJumped change MAX_PRICE_CHANGE_PERCENT)
    signal_type := some signal.signal_type
    signal_strength := some signal.strength
    market_cap_usd := signal.market_cap_usd
    liquidity_usd := signal.liquidity_usd
    entry_price_usd := signal.entry_price_usd
    stop_loss_percent := some signal.stop_loss_percent
    take_profit_percent := some signal.take_profit_percent
    trigger_wallets := some signal.wallets
    attempt_number := attempt
    price_at_signal := signal.entry_price_usd
    price_at_trade := current_price
    price_change_percent := price_change_percent
    signal_timestamp := some signal.timestamp }

/-- The success result returned by `execute_buy_jupiter`
(trader.rs lines 509-534). -/
def jup_success_result (cfg : Config) (signal : SpectreSignal) (attempt : ℕ)
    (out_amount : ℕ) (actual_entry_price : ℚ) (bundle_id : String)
    (current_price price_change_percent : Option ℚ) : TradeResult :=
  { success := true
    token_mint := signal.token_mint
    token_symbol := signal.token_symbol
    action := "buy"
    amount_sol := cfg.trade_amount_sol
    amount_tokens := some (out_amount : ℚ)
    price_per_token := some actual_entry_price
    tx_signature := some bundle_id
    error := none
    signal_type := some signal.signal_type
    signal_strength := some signal.strength
    market_cap_usd := signal.market_cap_usd
    liquidity_usd := signal.liquidity_usd
    entry_price_usd := signal.entry_price_usd
    stop_loss_percent := some signal.stop_loss_percent
    take_profit_percent := some signal.take_profit_percent
    trigger_wallets := some signal.wallets
    attempt_number := attempt
    price_at_signal := signal.entry_price_usd
    price_at_trade := current_price
    price_change_percent := price_change_percent
    signal_timestamp := some signal.timestamp }

/-- The blockhash/swap/submit/register tail of one `execute_buy_jupiter`
iteration (trader.rs lines 418-535), entered once the price-jump veto has
passed. -/
def jup_attempt_submit (cfg : Config) (now : ℤ) (signal : SpectreSignal)
    (attempt : ℕ) (e : JupAttemptEnv) (s : TraderState) (out_amount : ℕ)
    (current_price : Option ℚ) (price_change_percent : Option ℚ) :
    JupOutcome :=
  if !e.blockhash_ok then
    .retry (create_error_result cfg signal .blockhashFailed attempt current_price)
  else if !e.swap_tx_ok then
    .retry (create_error_result cfg signal .swapTxFailed attempt current_price)
  else
    match e.submit with
    | none =>
      .retry (create_error_result cfg signal .txFailed attempt current_price)
    | some bundle_id =>
      -- Use actual trade price (from quote), not signal price
      let actual_entry_price :=
        current_price.getD (signal.entry_price_usd.getD 0)
      let position := Position.new signal.token_mint signal.token_symbol
        actual_entry_price out_amount cfg.trade_amount_sol
        signal.stop_loss_percent signal.take_profit_percent bundle_id
        false now
      .done
        (jup_success_result cfg signal attempt out_amount actual_entry_price
          bundle_id current_price price_change_percent)
        { s with positions := PositionManager.add_position s.positions position }

/-- The quote-implied price of `execute_buy_jupiter`
(trader.rs lines 367-371): SOL amount over tokens out, absent when the
quote's `out_amount` is zero. -/
def jup_current_price (cfg : Config) (out_amount : ℕ) : Option ℚ :=
  if 0 < out_amount then some (cfg.trade_amount_sol / (out_amount : ℚ))
  else none

/-- The price change from the signal reference
(trader.rs lines 374-380): available only when both prices exist and the
signal price is positive. -/
def jup_price_change_percent (signal : SpectreSignal)
    (current_price : Option ℚ) : Option ℚ :=
  match signal.entry_price_usd, current_price with
  | some signal_p, some current_p =>
    if 0 < signal_p then some ((current_p - signal_p) / signal_p * 100)
    else none
  | _, _ => none

/-- One iteration of the `execute_buy_jupiter` attempt loop
(trader.rs lines 341-535). -/
def jup_attempt (cfg : Config) (now : ℤ) (signal : SpectreSignal)
    (attempt : ℕ) (e : JupAttemptEnv) (s : TraderState) : JupOutcome :=
  match e.quote with
  | none => .retry (create_error_result cfg signal .quoteFailed attempt none)
  | some quote =>
    let out_amount := quote.out_amount
    -- Calculate current price from quote (SOL per token)
    let current_price : Option ℚ := jup_current_price cfg out_amount
    -- Check price change from signal (if we have both prices)
    let price_change_percent : Option ℚ :=
      jup_price_change_percent signal current_price
    -- Skip if price jumped too much
    match price_change_percent with
    | some change =>
      if change > MAX_PRICE_CHANGE_PERCENT then
        .done
          (price_jump_result cfg signal attempt current_price
            price_change_percent change)
          s
      else
        jup_attempt_submit cfg now signal attempt e s out_amount
          current_price price_change_percent
    | none =>
      jup_attempt_submit cfg now signal attempt e s out_amount
        current_price price_change_percent

/-- The `for attempt in 1..=MAX_ATTEMPTS` loop of `execute_buy_jupiter`
(trader.rs lines 341-538). `envs` lists the environments of the attempts
still to run, so `rest.isEmpty` is exactly `attempt == MAX_ATTEMPTS` when
the loop is entered with `JUPITER_MAX_ATTEMPTS` environments; the empty
case is the unreachable post-loop return (trader.rs line 538). -/
def execute_buy_jupiter_loop (cfg : Config) (now : ℤ)
    (signal : SpectreSignal) :
    TraderState → List JupAttemptEnv → ℕ → TradeResult × TraderState
  | s, [], _ =>
    (create_error_result cfg signal .maxAttemptsExhausted JUPITER_MAX_ATTEMPTS
      none, s)
  | s, e :: rest, attempt =>
    match jup_attempt cfg now signal attempt e s with
    | .done result s' => (result, s')
    | .retry error_result =>
      if rest.isEmpty then (error_result, s)
      else execute_buy_jupiter_loop cfg now signal s rest (attempt + 1)

/-- `SpectreTrader::execute_buy_jupiter` (trader.rs lines 332-539):
run the attempt loop starting from attempt 1. -/
def execute_buy_jupiter (cfg : Config) (now : ℤ) (signal : SpectreSignal)
    (s : TraderState) (envs : List JupAttemptEnv) :
    TradeResult × TraderState :=
  execute_buy_jupiter_loop cfg now signal s envs 1

/-- Environment of one `execute_buy_pumpfun` loop iteration.
`fresh_tx` is the outcome of `get_fresh_pumpfun_tx` (used when there is no
prepared transaction, or on a retry); `sign_ok` the outcome of
`pumpfun.sign_transaction`; `submit` the outcome of the Jito submission
with RPC fallback. -/
structure PfAttemptEnv where
  fresh_tx : Except Unit (List ℕ)
  sign_ok : Bool
  submit : Option String
  deriving Repr

/-- Outcome of one `execute_buy_pumpfun` loop iteration. `abort` is the
`?` propagation when a retry's fresh-transaction fetch fails while a
prepared transaction had been found (trader.rs line 212). -/
inductive PfOutcome where
  | done (result : TradeResult) (state : TraderState)
  | retry (error_result : TradeResult) (state : TraderState)
  | abort

/-- The success result returned by `execute_buy_pumpfun`
(trader.rs lines 300-325). -/
def pf_success_result (cfg : Config) (signal : SpectreSignal) (attempt : ℕ)
    (estimated_tokens : ℕ) (entry_price : ℚ) (tx_sig : String) :
    TradeResult :=
  { success := true
    token_mint := signal.token_mint
    token_symbol := signal.token_symbol
    action := "buy"
    amount_sol := cfg.trade_amount_sol
    amount_tokens := some (estimated_tokens : ℚ)
    price_per_token := some entry_price
    tx_signature := some tx_sig
    error := none
    signal_type := some signal.signal_type
    signal_strength := some signal.strength
    market_cap_usd := signal.market_cap_usd
    liquidity_usd := signal.liquidity_usd
    entry_price_usd := signal.entry_price_usd
    stop_loss_percent := some signal.stop_loss_percent
    take_profit_percent := some signal.take_profit_percent
    trigger_wallets := some signal.wallets
    attempt_number := attempt
    price_at_signal := signal.entry_price_usd
    price_at_trade := signal.entry_price_usd
    price_change_percent := some 0
    signal_timestamp := some signal.timestamp }

/-- The sign-submit-register tail of one `execute_buy_pumpfun` iteration
(trader.rs lines 229-325), entered once transaction bytes are in hand. -/
def pf_attempt_after_bytes (cfg : Config) (now : ℤ) (signal : SpectreSignal)
    (used_prepared : Bool) (attempt : ℕ) (e : PfAttemptEnv) (s : TraderState) :
    PfOutcome :=
  -- Remove from cache after use (regardless of success)
  let s := if used_prepared then
    { s with prepared_tx_cache := s.prepared_tx_cache.remove signal.token_mint }
  else s
  if !e.sign_ok then
    .retry (create_error_result cfg signal .signFailed attempt none) s
  else
    match e.submit with
    | none => .retry (create_error_result cfg signal .txFailed attempt none) s
    | some tx_sig =>
      -- Use signal price as entry (we don't have exact quote from pump.fun)
      let entry_price := signal.entry_price_usd.getD 0
      -- Estimate tokens received from market cap and SOL invested
      -- (rough SOL price estimate of 200)
      let estimated_tokens : ℕ :=
        if 0 < entry_price then
          (Int.floor (cfg.trade_amount_sol * 200 / entry_price)).toNat
        else 0
      let position := Position.new signal.token_mint signal.token_symbol
        entry_price estimated_tokens cfg.trade_amount_sol
        signal.stop_loss_percent signal.take_profit_percent tx_sig true now
      .done
        (pf_success_result cfg signal attempt estimated_tokens entry_price
          tx_sig)
        { s with positions := PositionManager.add_position s.positions position }

/-- One iteration of the `execute_buy_pumpfun` attempt loop
(trader.rs lines 202-326): acquire transaction bytes (prepared bytes on
attempt 1, otherwise a fresh fetch), then sign, submit and register. -/
def pf_attempt (cfg : Config) (now : ℤ) (signal : SpectreSignal)
    (prepared : Option PreparedTx) (attempt : ℕ) (e : PfAttemptEnv)
    (s : TraderState) : PfOutcome :=
  match prepared with
  | some _p =>
    if attempt = 1 then
      -- Use prepared TX on first attempt
      pf_attempt_after_bytes cfg now signal true attempt e s
    else
      -- Get fresh TX on retry (prepared might be stale); `?` propagates
      match e.fresh_tx with
      | .ok _ => pf_attempt_after_bytes cfg now signal true attempt e s
      | .error _ => .abort
  | none =>
    match e.fresh_tx with
    | .ok _ => pf_attempt_after_bytes cfg now signal false attempt e s
    | .error _ =>
      .retry (create_error_result cfg signal .pumpPortalFailed attempt none) s

/-- The `for attempt in 1..=MAX_ATTEMPTS` loop of `execute_buy_pumpfun`
(trader.rs lines 202-328), with the post-loop "Max attempts exhausted"
return as the empty case. -/
def execute_buy_pumpfun_loop (cfg : Config) (now : ℤ)
    (signal : SpectreSignal) (prepared : Option PreparedTx) :
    TraderState → List PfAttemptEnv → ℕ →
    Except Unit (TradeResult × TraderState)
  | s, [], _ =>
    .ok (create_error_result cfg signal .maxAttemptsExhausted
      PUMPFUN_MAX_ATTEMPTS none, s)
  | s, e :: rest, attempt =>
    match pf_attempt cfg now signal prepared attempt e s with
    | .abort => .error ()
    | .done result s' => .ok (result, s')
    | .retry error_result s' =>
      if rest.isEmpty then .ok (error_result, s')
      else execute_buy_pumpfun_loop cfg now signal prepared s' rest (attempt + 1)

/-- `SpectreTrader::execute_buy_pumpfun` (trader.rs lines 188-329):
look up a prepared transaction (fast-confirm), then run the attempt loop
from attempt 1. `mono` is the current `Instant` consulted by the cache. -/
def execute_buy_pumpfun (cfg : Config) (mono : ℕ) (now : ℤ)
    (signal : SpectreSignal) (s : TraderState) (envs : List PfAttemptEnv) :
    Except Unit (TradeResult × TraderState) :=
  let prepared := s.prepared_tx_cache.get mono signal.token_mint
  execute_buy_pumpfun_loop cfg now signal prepared s envs 1

/-- `SpectreTrader::execute_buy` (trader.rs lines 156-184): refuse when a
position already exists, else route NINJA signals to pump.fun and all
others to Jupiter. -/
def execute_buy (cfg : Config) (mono : ℕ) (now : ℤ) (signal : SpectreSignal)
    (s : TraderState) (pf_envs : List PfAttemptEnv)
    (jup_envs : List JupAttemptEnv) : Except Unit (TradeResult × TraderState) :=
  -- Check if we already have a position
  if PositionManager.has_position s.positions signal.token_mint then
    .ok (create_error_result cfg signal .alreadyHavePosition 1 none, s)
  else if signal.signal_type.toLower = "ninja" then
    execute_buy_pumpfun cfg mono now signal s pf_envs
  else
    .ok (execute_buy_jupiter cfg now signal s jup_envs)

end SpectreTrader

end Spectre

/-! ## ninja-trader position (src/apps/ninja-trader/src/position/mod.rs) -/

namespace NinjaTrader

/-- Active position of the `ninja-trader` app
(ninja-trader/src/position/mod.rs, `struct Position`). -/
structure Position where
  token_mint : String
  token_symbol : String
  entry_price_usd : ℚ
  amount_tokens : ℕ
  amount_sol_invested : ℚ
  stop_loss_price : ℚ
  take_profit_price : ℚ
  entry_time : ℤ
  tx_signature : String
  deriving DecidableEq, Repr

namespace Position

/-- `Position::new` of ninja-trader (ninja-trader/src/position/mod.rs
lines 23-57). The source documents `stop_loss_percent` as arriving signed
(e.g. `-25`) and `take_profit_percent` as positive (e.g. `50`); no absolute
value is taken. -/
def new (token_mint token_symbol : String) (entry_price_usd : ℚ)
    (amount_tokens : ℕ) (amount_sol_invested : ℚ)
    (stop_loss_percent take_profit_percent : ℚ) (tx_signature : String)
    (now : ℤ) : Position :=
  { token_mint := token_mint
    token_symbol := token_symbol
    entry_price_usd := entry_price_usd
    amount_tokens := amount_tokens
    amount_sol_invested := amount_sol_invested
    stop_loss_price := entry_price_usd * (1 + stop_loss_percent / 100)
    take_profit_price := entry_price_usd * (1 + take_profit_percent / 100)
    entry_time := now
    tx_signature := tx_signature }

end Position

end NinjaTrader

namespace Spectre

/-- Comparator for claim C4, following the claim's wording rather than the
source: the exit-decision order with a time-limited pre-sync grace window,
"(2) if the position is curve-venue and within 3 seconds
(PRICE_SYNC_WAIT_SECS) of entry_time and not yet price-synced, no exit".
The subsequent checks are those of `Position.check_exit`. -/
def Position.check_exit_per_claim (p : Position) (now : ℤ)
    (current_price : ℚ) : Option ExitReason :=
  if p.is_unsellable then none
  else if p.is_pumpfun && !p.price_synced && p.is_waiting_for_price_sync now
    then none
  else if current_price ≤ p.stop_loss_price then some .stopLoss
  else if p.is_ninja then
    let profit_percent := (current_price / p.entry_price - 1) * 100
    match p.scaled_exit_stage with
    | 0 =>
      if profit_percent ≥ Position.NINJA_TP1_PERCENT then
        some (.scaledTakeProfit 1 Position.NINJA_TP1_SELL_PERCENT
          Position.NINJA_TP1_PERCENT)
      else none
    | 1 =>
      if profit_percent ≥ Position.NINJA_TP2_PERCENT then
        some (.scaledTakeProfit 2 Position.NINJA_TP2_SELL_PERCENT
          Position.NINJA_TP2_PERCENT)
      else none
    | 2 =>
      if profit_percent ≥ Position.NINJA_TP3_PERCENT then
        some (.scaledTakeProfit 3 Position.NINJA_TP3_SELL_PERCENT
          Position.NINJA_TP3_PERCENT)
      else none
    | _ => none
  else if current_price ≥ p.take_profit_price then some .takeProfit
  else none

/-! ### Concrete fixtures used by witnesses and counterexamples -/

/-- A concrete configuration: 1 SOL per trade. -/
def sample_config : Config :=
  { trade_amount_sol := 1, slippage_bps := 300, jito_tip_lamports := 100000 }

/-- A concrete consensus signal with reference entry price 0.01. -/
def sample_consensus_signal : SpectreSignal :=
  { token_mint := "mintA"
    token_symbol := "AAA"
    signal_type := "consensus"
    strength := "high"
    market_cap_usd := some 50000
    liquidity_usd := none
    entry_price_usd := some (1 / 100)
    stop_loss_percent := 25
    take_profit_percent := 50
    wallets := ["w1"]
    timestamp := "2024-01-01T00:00:00Z" }

/-- A concrete position on `"mintA"` held via pump.fun, not yet synced,
created at instant 0, SL level 3/4, TP level 3/2 of entry price 1. -/
def sample_open_position : Position :=
  { token_mint := "mintA"
    token_symbol := "AAA"
    entry_price := 1
    amount_tokens := 1000
    amount_sol_invested := 1
    stop_loss_percent := 25
    take_profit_percent := 50
    stop_loss_price := 3 / 4
    take_profit_price := 3 / 2
    entry_time := 0
    tx_signature := "sig0"
    failed_sell_attempts := 0
    is_unsellable := false
    is_pumpfun := true
    price_synced := false
    high_price := 1
    signal_type := "ninja"
    scaled_exit_stage := 0
    original_amount_tokens := 1000 }

/-- The same position, synced (as the price monitor leaves it after the
first price update). -/
def sample_synced_ninja_position : Position :=
  { sample_open_position with price_synced := true }

/-- The same position marked unsellable. -/
def sample_unsellable_position : Position :=
  { sample_open_position with is_unsellable := true }

/-- A registry holding exactly `sample_open_position`. -/
def sample_registry : PositionMap :=
  PositionManager.add_position PositionManager.new sample_open_position

/-- A trader state holding `sample_open_position` and an empty cache. -/
def sample_state : TraderState :=
  { positions := sample_registry
    prepared_tx_cache := PreparedTxCache.new SpectreTrader.PREPARED_TX_EXPIRY_SECS }

/-- A trader state with no positions and an empty cache. -/
def empty_state : TraderState :=
  { positions := PositionManager.new
    prepared_tx_cache := PreparedTxCache.new SpectreTrader.PREPARED_TX_EXPIRY_SECS }

/-- A Jupiter attempt whose every external call succeeds: the quote returns
100 base units, and submission is accepted as bundle `"bundle1"`. -/
def sample_jup_env : SpectreTrader.JupAttemptEnv :=
  { quote := some { out_amount := 100 }
    blockhash_ok := true
    swap_tx_ok := true
    submit := some "bundle1" }

/-- A Jupiter attempt whose quote implies a price of 1/50 = 0.02, a +100%
jump over the reference entry price 0.01 of `sample_consensus_signal`. -/
def sample_jump_env : SpectreTrader.JupAttemptEnv :=
  { quote := some { out_amount := 50 }
    blockhash_ok := true
    swap_tx_ok := true
    submit := some "bundle2" }

/-- A concrete prepared transaction created at instant 5. -/
def sample_prepared_tx : PreparedTx :=
  { token_mint := "mintA"
    token_symbol := "AAA"
    tx_bytes := [1, 2, 3]
    created_at := 5
    market_cap_usd := none
    entry_price_usd := some (1 / 100) }

/-- A cache with TTL 60 holding `sample_prepared_tx` under `"mintA"`. -/
def sample_cache : PreparedTxCache :=
  PreparedTxCache.insert
    (PreparedTxCache.new SpectreTrader.PREPARED_TX_EXPIRY_SECS) "mintA"
    sample_prepared_tx

/-- A trade event carrying virtual reserves 30 SOL / 1000000 tokens. -/
def sample_trade_event : TradeEvent :=
  { signature := some "txsig"
    mint := "mintA"
    sol_amount := some 1
    token_amount := some 200
    is_buy := some true
    user := some "wallet"
    timestamp := some 1700000000
    virtual_sol_reserves := some 30
    virtual_token_reserves := some 1000000
    market_cap_sol := some 30000 }

/-- The same trade event with no usable virtual reserves (token reserve
absent), forcing the amount fallback. -/
def sample_trade_event_no_reserves : TradeEvent :=
  { sample_trade_event with virtual_token_reserves := none }

/-- The same trade event with no usable denominator anywhere. -/
def sample_trade_event_degenerate : TradeEvent :=
  { sample_trade_event with
      virtual_token_reserves := some 0
      token_amount := some 0 }

end Spectre

namespace Spectre

/-! ## Theorems -/

/-- C10: `PumpPortalClient::calculate_price` never divides by zero and is
total over trade events: it computes a price from virtual reserves only
when `virtual_token_reserves > 0`, otherwise falls back to
`sol_amount / token_amount` only when `token_amount > 0`, and returns
`none` whenever no pair of fields supplies a positive denominator. -/
theorem calculate_price_positive_denominators (trade : TradeEvent)
    (sol_usd : ℚ) (now : ℤ) :
    (∀ sr tr, trade.virtual_sol_reserves = some sr →
      trade.virtual_token_reserves = some tr → 0 < tr →
      PumpPortalClient.calculate_price trade sol_usd now =
        some { token_mint := trade.mint
               price_usd := sr / tr * sol_usd
               market_cap_usd := sr / tr * sol_usd * 1000000000
               timestamp := trade.timestamp.getD now }) ∧
    ((¬ ∃ sr tr, trade.virtual_sol_reserves = some sr ∧
        trade.virtual_token_reserves = some tr ∧ 0 < tr) →
      ∀ sa ta, trade.sol_amount = some sa → trade.token_amount = some ta →
      0 < ta →
      PumpPortalClient.calculate_price trade sol_usd now =
        some { token_mint := trade.mint
               price_usd := sa / ta * sol_usd
               market_cap_usd := sa / ta * sol_usd * 1000000000
               timestamp := trade.timestamp.getD now }) ∧
    ((¬ ∃ sr tr, trade.virtual_sol_reserves = some sr ∧
        trade.virtual_token_reserves = some tr ∧ 0 < tr) →
      (¬ ∃ sa ta, trade.sol_amount = some sa ∧
        trade.token_amount = some ta ∧ 0 < ta) →
      PumpPortalClient.calculate_price trade sol_usd now = none) := by
  have hres_none :
      (¬ ∃ sr tr, trade.virtual_sol_reserves = some sr ∧
        trade.virtual_token_reserves = some tr ∧ 0 < tr) →
      PumpPortalClient.calculate_price_from_reserves trade sol_usd now = none := by
    intro h
    unfold PumpPortalClient.calculate_price_from_reserves
    cases hs : trade.virtual_sol_reserves with
    | none => rfl
    | some sr =>
      cases ht : trade.virtual_token_reserves with
      | none => rfl
      | some tr =>
        simp only [if_neg (fun hpos => h ⟨sr, tr, hs, ht, hpos⟩)]
  refine ⟨?_, ?_, ?_⟩
  · intro sr tr hs ht hpos
    unfold PumpPortalClient.calculate_price
      PumpPortalClient.calculate_price_from_reserves
    rw [hs, ht]
    simp [hpos]
  · intro hnone sa ta hsa hta hpos
    unfold PumpPortalClient.calculate_price
    rw [hres_none hnone]
    unfold PumpPortalClient.calculate_price_from_amounts
    rw [hsa, hta]
    simp [hpos]
  · intro hnone hnone2
    unfold PumpPortalClient.calculate_price
    rw [hres_none hnone]
    unfold PumpPortalClient.calculate_price_from_amounts
    cases hsa : trade.sol_amount with
    | none => rfl
    | some sa =>
      cases hta : trade.token_amount with
      | none => rfl
      | some ta =>
        simp only [if_neg (fun hpos => hnone2 ⟨sa, ta, hsa, hta, hpos⟩)]

/-- Witness for C10: the three branches of
`calculate_price_positive_denominators` at concrete trade events (reserve
price 30/1000000 per token, fallback price 1/200 per token, and the
degenerate event with no positive denominator). -/
theorem calculate_price_positive_denominators_witness :
    (PumpPortalClient.calculate_price sample_trade_event 200 0 =
      some { token_mint := "mintA"
             price_usd := 30 / 1000000 * 200
             market_cap_usd := 30 / 1000000 * 200 * 1000000000
             timestamp := 1700000000 }) ∧
    (PumpPortalClient.calculate_price sample_trade_event_no_reserves 200 0 =
      some { token_mint := "mintA"
             price_usd := 1 / 200 * 200
             market_cap_usd := 1 / 200 * 200 * 1000000000
             timestamp := 1700000000 }) ∧
    (PumpPortalClient.calculate_price sample_trade_event_degenerate 200 0 =
      none) := by
  refine ⟨?_, ?_, ?_⟩
  · exact (calculate_price_positive_denominators sample_trade_event 200 0).1
      30 1000000 rfl rfl (by norm_num)
  · refine (calculate_price_positive_denominators
        sample_trade_event_no_reserves 200 0).2.1 ?_ 1 200 rfl rfl (by norm_num)
    rintro ⟨sr, tr, hs, ht, hpos⟩
    rw [show sample_trade_event_no_reserves.virtual_token_reserves =
      (none : Option ℚ) from rfl] at ht
    exact Option.noConfusion ht
  · refine (calculate_price_positive_denominators
        sample_trade_event_degenerate 200 0).2.2 ?_ ?_
    · rintro ⟨sr, tr, hs, ht, hpos⟩
      rw [show sample_trade_event_degenerate.virtual_token_reserves =
        some (0 : ℚ) from rfl, Option.some.injEq] at ht
      rw [← ht] at hpos
      norm_num at hpos
    · rintro ⟨sa, ta, hsa, hta, hpos⟩
      rw [show sample_trade_event_degenerate.token_amount =
        some (0 : ℚ) from rfl, Option.some.injEq] at hta
      rw [← hta] at hpos
      norm_num at hpos

/-- C9: `PreparedTxCache::get` returns `some entry` only if the entry's age
since `created_at` is strictly below the cache's TTL; for an absent or
expired entry it returns `none`; the trader constructs the cache with a TTL
of 60 seconds. -/
theorem prepared_tx_cache_get_only_fresh (c : PreparedTxCache) (now : ℕ)
    (token_mint : String) :
    (∀ p, c.get now token_mint = some p →
      c.entries token_mint = some p ∧ now - p.created_at < c.expiry_secs) ∧
    (c.entries token_mint = none → c.get now token_mint = none) ∧
    (∀ p, c.entries token_mint = some p →
      c.expiry_secs ≤ now - p.created_at → c.get now token_mint = none) ∧
    SpectreTrader.PREPARED_TX_EXPIRY_SECS = 60 := by
  refine ⟨?_, ?_, ?_, rfl⟩
  · intro p hp
    cases he : c.entries token_mint with
    | none => simp [PreparedTxCache.get, he] at hp
    | some q =>
      simp only [PreparedTxCache.get, he] at hp
      by_cases hfresh : now - q.created_at < c.expiry_secs
      · rw [if_pos hfresh, Option.some.injEq] at hp
        rw [← hp]
        exact ⟨rfl, hfresh⟩
      · rw [if_neg hfresh] at hp
        exact absurd hp (by simp)
  · intro he
    simp [PreparedTxCache.get, he]
  · intro p he hstale
    simp only [PreparedTxCache.get, he]
    exact if_neg (by omega)

/-- Witness for C9: the concrete cache hands out the entry aged 10 s
(10 < 60) and refuses it aged 70 s (70 ≥ 60, counted from `created_at`
= 5). -/
theorem prepared_tx_cache_get_only_fresh_witness :
    (sample_cache.entries "mintA" = some sample_prepared_tx ∧
      (15 : ℕ) - sample_prepared_tx.created_at < sample_cache.expiry_secs) ∧
    sample_cache.get 75 "mintA" = none := by
  constructor
  · exact (prepared_tx_cache_get_only_fresh sample_cache 15 "mintA").1
      sample_prepared_tx rfl
  · exact (prepared_tx_cache_get_only_fresh sample_cache 75 "mintA").2.2.1
      sample_prepared_tx rfl (by norm_num [sample_cache, sample_prepared_tx,
        PreparedTxCache.insert, PreparedTxCache.new,
        SpectreTrader.PREPARED_TX_EXPIRY_SECS])

/-- C3: at creation and after each entry-price sync, the derived levels
satisfy `stop_loss_price = entry · (1 − sl%/100)` and
`take_profit_price = entry · (1 + tp%/100)` with `sl%`/`tp%` the positive
magnitudes of the configured percentages (which the spectre position also
stores verbatim); for the ninja-trader position the source documents the
stop-loss percent as arriving negative and the take-profit percent as
positive, and under that sign convention the same formulas hold. -/
theorem derived_levels_from_percentages :
    (∀ tm ts (entry : ℚ) amt (inv sl tp : ℚ) sig ipf st (now : ℤ),
      (Position.new_with_signal_type tm ts entry amt inv sl tp sig ipf st
        now).stop_loss_price = entry * (1 - |sl| / 100) ∧
      (Position.new_with_signal_type tm ts entry amt inv sl tp sig ipf st
        now).take_profit_price = entry * (1 + |tp| / 100) ∧
      (Position.new_with_signal_type tm ts entry amt inv sl tp sig ipf st
        now).stop_loss_percent = sl ∧
      (Position.new_with_signal_type tm ts entry amt inv sl tp sig ipf st
        now).take_profit_percent = tp ∧
      (Position.new_with_signal_type tm ts entry amt inv sl tp sig ipf st
        now).entry_price = entry) ∧
    (∀ (p : Position) (real_price : ℚ), p.price_synced = false →
      (p.sync_with_real_price real_price).stop_loss_price =
        real_price * (1 - |p.stop_loss_percent| / 100) ∧
      (p.sync_with_real_price real_price).take_profit_price =
        real_price * (1 + |p.take_profit_percent| / 100) ∧
      (p.sync_with_real_price real_price).entry_price = real_price ∧
      (p.sync_with_real_price real_price).stop_loss_percent =
        p.stop_loss_percent ∧
      (p.sync_with_real_price real_price).take_profit_percent =
        p.take_profit_percent) ∧
    (∀ tm ts (entry : ℚ) amt (inv sl tp : ℚ) sig (now : ℤ),
      sl ≤ 0 → 0 ≤ tp →
      (NinjaTrader.Position.new tm ts entry amt inv sl tp sig
        now).stop_loss_price = entry * (1 - |sl| / 100) ∧
      (NinjaTrader.Position.new tm ts entry amt inv sl tp sig
        now).take_profit_price = entry * (1 + |tp| / 100)) := by
  refine ⟨?_, ?_, ?_⟩
  · intro tm ts entry amt inv sl tp sig ipf st now
    exact ⟨rfl, rfl, rfl, rfl, rfl⟩
  · intro p real_price hsync
    unfold Position.sync_with_real_price
    rw [hsync]
    exact ⟨rfl, rfl, rfl, rfl, rfl⟩
  · intro tm ts entry amt inv sl tp sig now hsl htp
    unfold NinjaTrader.Position.new
    constructor
    · show entry * (1 + sl / 100) = entry * (1 - |sl| / 100)
      rw [abs_of_nonpos hsl]
      ring
    · show entry * (1 + tp / 100) = entry * (1 + |tp| / 100)
      rw [abs_of_nonneg htp]

/-- Witness for C3: the formulas at a concrete spectre position creation
(entry 2, sl 25, tp 50), a concrete sync to price 4 of the unsynced
`sample_open_position`, and a concrete ninja-trader creation with the
documented signs (sl −25, tp 50). -/
theorem derived_levels_from_percentages_witness :
    ((Position.new_with_signal_type "m" "M" 2 10 1 25 50 "s" true "ninja"
        0).stop_loss_price = 2 * (1 - |(25 : ℚ)| / 100) ∧
      (Position.new_with_signal_type "m" "M" 2 10 1 25 50 "s" true "ninja"
        0).take_profit_price = 2 * (1 + |(50 : ℚ)| / 100)) ∧
    (sample_open_position.price_synced = false ∧
      (sample_open_position.sync_with_real_price 4).stop_loss_price =
        4 * (1 - |(25 : ℚ)| / 100)) ∧
    ((-25 : ℚ) ≤ 0 ∧ (0 : ℚ) ≤ 50 ∧
      (NinjaTrader.Position.new "m" "M" 2 10 1 (-25) 50 "s"
        0).stop_loss_price = 2 * (1 - |(-25 : ℚ)| / 100)) := by
  refine ⟨?_, ⟨rfl, ?_⟩, ⟨by norm_num, by norm_num, ?_⟩⟩
  · have h := (derived_levels_from_percentages).1 "m" "M" 2 10 1 25 50 "s"
      true "ninja" 0
    exact ⟨h.1, h.2.1⟩
  · exact ((derived_levels_from_percentages).2.1 sample_open_position 4
      rfl).1
  · exact ((derived_levels_from_percentages).2.2 "m" "M" 2 10 1 (-25) 50 "s"
      0 (by norm_num) (by norm_num)).1

/-- C6: for a registered token, `advance_scaled_exit` sells the floor of
`remaining · sell_percent/100`, subtracts it with saturating subtraction,
records the new stage, and reports full closure exactly when the remaining
balance reached zero; for an unregistered token it returns `none`. -/
theorem advance_scaled_exit_floor_saturate :
    (∀ (m : PositionMap) (t : String) (stage : ℕ) (sell_percent : ℚ) p,
      m t = some p → 0 ≤ sell_percent →
      ∃ tokens_to_sell fully_closed m',
        PositionManager.advance_scaled_exit m t stage sell_percent =
          (m', some (tokens_to_sell, fully_closed)) ∧
        (tokens_to_sell : ℤ) =
          Int.floor ((p.amount_tokens : ℚ) * sell_percent / 100) ∧
        m' t = some { p with
          amount_tokens := p.amount_tokens - tokens_to_sell
          scaled_exit_stage := stage } ∧
        (fully_closed = true ↔ p.amount_tokens - tokens_to_sell = 0)) ∧
    (∀ (m : PositionMap) (t : String) (stage : ℕ) (sell_percent : ℚ),
      m t = none →
      PositionManager.advance_scaled_exit m t stage sell_percent =
        (m, none)) := by
  constructor
  · intro m t stage sell_percent p hp hsp
    have hx : (0 : ℚ) ≤ (p.amount_tokens : ℚ) * sell_percent / 100 := by
      positivity
    refine ⟨(Int.floor ((p.amount_tokens : ℚ) * sell_percent / 100)).toNat,
      (p.advance_scaled_exit stage sell_percent).1.is_fully_closed,
      PositionManager.insert m t (p.advance_scaled_exit stage sell_percent).1,
      ?_, ?_, ?_, ?_⟩
    · simp only [PositionManager.advance_scaled_exit, hp]
      rfl
    · exact Int.toNat_of_nonneg (Int.floor_nonneg.mpr hx)
    · simp [PositionManager.insert, Position.advance_scaled_exit]
    · simp [Position.is_fully_closed, Position.advance_scaled_exit]
  · intro m t stage sell_percent hp
    simp only [PositionManager.advance_scaled_exit, hp]

/-- Witness for C6: advancing the registered position on `"mintA"`
(1000 tokens) to stage 1 with an 80% sell. -/
theorem advance_scaled_exit_floor_saturate_witness :
    sample_registry "mintA" = some sample_open_position ∧ (0 : ℚ) ≤ 80 ∧
    ∃ tokens_to_sell fully_closed m',
      PositionManager.advance_scaled_exit sample_registry "mintA" 1 80 =
        (m', some (tokens_to_sell, fully_closed)) ∧
      (tokens_to_sell : ℤ) =
        Int.floor ((sample_open_position.amount_tokens : ℚ) * 80 / 100) ∧
      m' "mintA" = some { sample_open_position with
        amount_tokens := sample_open_position.amount_tokens - tokens_to_sell
        scaled_exit_stage := 1 } ∧
      (fully_closed = true ↔
        sample_open_position.amount_tokens - tokens_to_sell = 0) :=
  ⟨rfl, by norm_num,
    advance_scaled_exit_floor_saturate.1 sample_registry "mintA" 1 80
      sample_open_position rfl (by norm_num)⟩

/-- `sync_with_real_price` never touches the unsellable flag. -/
theorem sync_with_real_price_keeps_unsellable (p : Position) (r : ℚ) :
    (p.sync_with_real_price r).is_unsellable = p.is_unsellable := by
  unfold Position.sync_with_real_price
  split <;> rfl

/-- `update_high_price` never touches the unsellable flag. -/
theorem update_high_price_keeps_unsellable (p : Position) (c : ℚ) :
    (p.update_high_price c).is_unsellable = p.is_unsellable := by
  unfold Position.update_high_price
  split <;> rfl

/-- `Position.advance_scaled_exit` never touches the unsellable flag. -/
theorem advance_scaled_exit_keeps_unsellable (p : Position) (stage : ℕ)
    (sp : ℚ) :
    (p.advance_scaled_exit stage sp).1.is_unsellable = p.is_unsellable := rfl

/-- Overwriting one registry key with a position that is unsellable
whenever the overwritten one was preserves every stored unsellable flag. -/
theorem insert_preserves_unsellable (m : PositionMap) (tm : String)
    (q q' : Position) (hm : m tm = some q)
    (hF : q'.is_unsellable = true ∨ q'.is_unsellable = q.is_unsellable) :
    ∀ t p p', m t = some p → p.is_unsellable = true →
      PositionManager.insert m tm q' t = some p' →
      p'.is_unsellable = true := by
  intro t p p' hp hu hins
  unfold PositionManager.insert at hins
  by_cases ht : t = tm
  · rw [if_pos ht] at hins
    obtain rfl : q' = p' := by injection hins
    rcases hF with h | h
    · exact h
    · rw [h]
      rw [ht, hm] at hp
      obtain rfl : q = p := by injection hp
      exact hu
  · rw [if_neg ht] at hins
    rw [hp] at hins
    obtain rfl : p = p' := by injection hins
    exact hu

/-- C7: the unsellable flag is terminal. Once set, `check_exit` returns no
exit for every price, and none of the registry operations
(`sync_entry_price`, `update_high_price`, `advance_scaled_exit`,
`increment_failed_sell`, `mark_unsellable`, `update_tokens_after_sell`)
ever resets the flag to false on any stored position. -/
theorem unsellable_is_terminal :
    (∀ (p : Position) (price : ℚ), p.is_unsellable = true →
      p.check_exit price = none) ∧
    (∀ (m : PositionMap) (tm : String) (real : ℚ) t p p', m t = some p →
      p.is_unsellable = true →
      (PositionManager.sync_entry_price m tm real).1 t = some p' →
      p'.is_unsellable = true) ∧
    (∀ (m : PositionMap) (tm : String) (c : ℚ) t p p', m t = some p →
      p.is_unsellable = true →
      PositionManager.update_high_price m tm c t = some p' →
      p'.is_unsellable = true) ∧
    (∀ (m : PositionMap) (tm : String) (stage : ℕ) (sp : ℚ) t p p',
      m t = some p → p.is_unsellable = true →
      (PositionManager.advance_scaled_exit m tm stage sp).1 t = some p' →
      p'.is_unsellable = true) ∧
    (∀ (m : PositionMap) (tm : String) t p p', m t = some p →
      p.is_unsellable = true →
      (PositionManager.increment_failed_sell m tm).1 t = some p' →
      p'.is_unsellable = true) ∧
    (∀ (m : PositionMap) (tm : String) t p p', m t = some p →
      p.is_unsellable = true →
      PositionManager.mark_unsellable m tm t = some p' →
      p'.is_unsellable = true) ∧
    (∀ (m : PositionMap) (tm : String) (sold : ℕ) t p p', m t = some p →
      p.is_unsellable = true →
      PositionManager.update_tokens_after_sell m tm sold t = some p' →
      p'.is_unsellable = true) := by
  refine ⟨?_, ?_, ?_, ?_, ?_, ?_, ?_⟩
  · intro p price hu
    simp [Position.check_exit, hu]
  · intro m tm real t p p' hp hu hp'
    cases hm : m tm with
    | none =>
      simp only [PositionManager.sync_entry_price, hm] at hp'
      rw [hp] at hp'
      obtain rfl : p = p' := by injection hp'
      exact hu
    | some q =>
      simp only [PositionManager.sync_entry_price, hm] at hp'
      by_cases hn : q.needs_price_sync = true
      · rw [if_pos hn] at hp'
        exact insert_preserves_unsellable m tm q (q.sync_with_real_price real)
          hm (Or.inr (sync_with_real_price_keeps_unsellable q real)) t p p'
          hp hu hp'
      · rw [if_neg hn] at hp'
        have hmt : m t = some p' := hp'
        rw [hp] at hmt
        obtain rfl : p = p' := by injection hmt
        exact hu
  · intro m tm c t p p' hp hu hp'
    cases hm : m tm with
    | none =>
      simp only [PositionManager.update_high_price, hm] at hp'
      rw [hp] at hp'
      obtain rfl : p = p' := by injection hp'
      exact hu
    | some q =>
      simp only [PositionManager.update_high_price, hm] at hp'
      exact insert_preserves_unsellable m tm q (q.update_high_price c) hm
        (Or.inr (update_high_price_keeps_unsellable q c)) t p p' hp hu hp'
  · intro m tm stage sp t p p' hp hu hp'
    cases hm : m tm with
    | none =>
      simp only [PositionManager.advance_scaled_exit, hm] at hp'
      rw [hp] at hp'
      obtain rfl : p = p' := by injection hp'
      exact hu
    | some q =>
      simp only [PositionManager.advance_scaled_exit, hm] at hp'
      exact insert_preserves_unsellable m tm q
        (q.advance_scaled_exit stage sp).1 hm
        (Or.inr (advance_scaled_exit_keeps_unsellable q stage sp)) t p p'
        hp hu hp'
  · intro m tm t p p' hp hu hp'
    cases hm : m tm with
    | none =>
      simp only [PositionManager.increment_failed_sell, hm] at hp'
      rw [hp] at hp'
      obtain rfl : p = p' := by injection hp'
      exact hu
    | some q =>
      simp only [PositionManager.increment_failed_sell, hm] at hp'
      by_cases hthr : q.failed_sell_attempts + 1 ≥
          PositionManager.MAX_SELL_FAILURES
      · rw [if_pos hthr] at hp'
        exact insert_preserves_unsellable m tm q
          { q with
              failed_sell_attempts := q.failed_sell_attempts + 1
              is_unsellable := true } hm (Or.inl rfl) t p p' hp hu hp'
      · rw [if_neg hthr] at hp'
        exact insert_preserves_unsellable m tm q
          { q with failed_sell_attempts := q.failed_sell_attempts + 1 } hm
          (Or.inr rfl) t p p' hp hu hp'
  · intro m tm t p p' hp hu hp'
    cases hm : m tm with
    | none =>
      simp only [PositionManager.mark_unsellable, hm] at hp'
      rw [hp] at hp'
      obtain rfl : p = p' := by injection hp'
      exact hu
    | some q =>
      simp only [PositionManager.mark_unsellable, hm] at hp'
      exact insert_preserves_unsellable m tm q
        { q with is_unsellable := true } hm (Or.inl rfl) t p p' hp hu hp'
  · intro m tm sold t p p' hp hu hp'
    cases hm : m tm with
    | none =>
      simp only [PositionManager.update_tokens_after_sell, hm] at hp'
      rw [hp] at hp'
      obtain rfl : p = p' := by injection hp'
      exact hu
    | some q =>
      simp only [PositionManager.update_tokens_after_sell, hm] at hp'
      exact insert_preserves_unsellable m tm q
        { q with amount_tokens := q.amount_tokens - sold } hm (Or.inr rfl)
        t p p' hp hu hp'

/-- Witness for C7: the concrete unsellable position yields no exit at a
price far below its stop-loss level, and syncing some other token leaves
its flag set. -/
theorem unsellable_is_terminal_witness :
    sample_unsellable_position.check_exit (1 / 100) = none ∧
    ∀ p', (PositionManager.sync_entry_price
        (PositionManager.insert PositionManager.new "mintB"
          sample_unsellable_position) "mintB" 5).1 "mintB" = some p' →
      p'.is_unsellable = true := by
  constructor
  · exact unsellable_is_terminal.1 sample_unsellable_position (1 / 100) rfl
  · intro p' hp'
    exact unsellable_is_terminal.2.1 _ "mintB" 5 "mintB"
      sample_unsellable_position p' rfl rfl hp'

/-- C2: for a sellable, price-synced ninja position above its stop-loss
price, `check_exit` fires exactly the stage transition allowed by the
current `scaled_exit_stage` — stage 1 selling 80% at ≥ +30%, stage 2
selling 75% at ≥ +50%, stage 3 selling 100% at ≥ +80% — and otherwise
returns no exit; being a single `Option` value, at most one transition is
produced per evaluation. -/
theorem check_exit_ninja_stage_table (p : Position) (cp : ℚ)
    (hninja : p.signal_type = "ninja") (hunsell : p.is_unsellable = false)
    (hsync : p.price_synced = true) (hsl : p.stop_loss_price < cp) :
    (p.check_exit cp = some (.scaledTakeProfit 1 80 30) ↔
      p.scaled_exit_stage = 0 ∧ (cp / p.entry_price - 1) * 100 ≥ 30) ∧
    (p.check_exit cp = some (.scaledTakeProfit 2 75 50) ↔
      p.scaled_exit_stage = 1 ∧ (cp / p.entry_price - 1) * 100 ≥ 50) ∧
    (p.check_exit cp = some (.scaledTakeProfit 3 100 80) ↔
      p.scaled_exit_stage = 2 ∧ (cp / p.entry_price - 1) * 100 ≥ 80) ∧
    (p.check_exit cp = none ↔
      ¬(p.scaled_exit_stage = 0 ∧ (cp / p.entry_price - 1) * 100 ≥ 30) ∧
      ¬(p.scaled_exit_stage = 1 ∧ (cp / p.entry_price - 1) * 100 ≥ 50) ∧
      ¬(p.scaled_exit_stage = 2 ∧ (cp / p.entry_price - 1) * 100 ≥ 80)) := by
  have hns : p.needs_price_sync = false := by
    unfold Position.needs_price_sync
    rw [hsync]
    simp
  have hnj : p.is_ninja = true := by
    unfold Position.is_ninja
    rw [hninja]
    rfl
  have hnle : ¬ cp ≤ p.stop_loss_price := not_le.mpr hsl
  have hmain : p.check_exit cp =
      match p.scaled_exit_stage with
      | 0 => if (cp / p.entry_price - 1) * 100 ≥ 30 then
          some (.scaledTakeProfit 1 80 30) else none
      | 1 => if (cp / p.entry_price - 1) * 100 ≥ 50 then
          some (.scaledTakeProfit 2 75 50) else none
      | 2 => if (cp / p.entry_price - 1) * 100 ≥ 80 then
          some (.scaledTakeProfit 3 100 80) else none
      | _ => none := by
    unfold Position.check_exit
    rw [hunsell, hns, hnj]
    simp only [Bool.false_eq_true, if_false, hnle, if_true]
    rfl
  rw [hmain]
  rcases hst : p.scaled_exit_stage with _ | _ | _ | n
  · refine ⟨?_, ?_, ?_, ?_⟩ <;> by_cases h30 : (cp / p.entry_price - 1) * 100 ≥ 30 <;>
      simp [h30, ExitReason.scaledTakeProfit.injEq]
  · refine ⟨?_, ?_, ?_, ?_⟩ <;> by_cases h50 : (cp / p.entry_price - 1) * 100 ≥ 50 <;>
      simp [h50, ExitReason.scaledTakeProfit.injEq]
  · refine ⟨?_, ?_, ?_, ?_⟩ <;> by_cases h80 : (cp / p.entry_price - 1) * 100 ≥ 80 <;>
      simp [h80, ExitReason.scaledTakeProfit.injEq]
  · simp

/-- Witness for C2: the synced ninja position at stage 0 (entry 1) fires
the stage-1 80% exit at price 1.3 (+30%). -/
theorem check_exit_ninja_stage_table_witness :
    sample_synced_ninja_position.signal_type = "ninja" ∧
    sample_synced_ninja_position.is_unsellable = false ∧
    sample_synced_ninja_position.price_synced = true ∧
    sample_synced_ninja_position.stop_loss_price < (13 / 10 : ℚ) ∧
    sample_synced_ninja_position.check_exit (13 / 10) =
      some (.scaledTakeProfit 1 80 30) := by
  refine ⟨rfl, rfl, rfl, ?_, ?_⟩
  · norm_num [sample_synced_ninja_position, sample_open_position]
  · refine (check_exit_ninja_stage_table sample_synced_ninja_position
      (13 / 10) rfl rfl rfl ?_).1.mpr ⟨rfl, ?_⟩
    · norm_num [sample_synced_ninja_position, sample_open_position]
    · norm_num [sample_synced_ninja_position, sample_open_position]

/-- Counterexample for C4: an unsynced curve-venue position 100 seconds old
(far past the 3-second window, `is_waiting_for_price_sync` is false) still
gets no stop-loss exit from `check_exit` at a price below its stop-loss
level, while the claim's check order (modelled by `check_exit_per_claim`)
would demand `StopLoss`; the source gates on `needs_price_sync` with no
time component. -/
theorem check_exit_no_time_gate_counterexample :
    sample_open_position.is_pumpfun = true ∧
    sample_open_position.price_synced = false ∧
    sample_open_position.is_waiting_for_price_sync 100 = false ∧
    (1 / 2 : ℚ) ≤ sample_open_position.stop_loss_price ∧
    sample_open_position.check_exit (1 / 2) = none ∧
    sample_open_position.check_exit_per_claim 100 (1 / 2) =
      some .stopLoss := by
  refine ⟨rfl, rfl, ?_, ?_, rfl, ?_⟩
  · norm_num [Position.is_waiting_for_price_sync, sample_open_position,
      Position.PRICE_SYNC_WAIT_SECS]
  · norm_num [sample_open_position]
  · unfold Position.check_exit_per_claim
    norm_num [sample_open_position, Position.is_waiting_for_price_sync,
      Position.PRICE_SYNC_WAIT_SECS]

/-- C4 (amended): `check_exit` evaluates, in order: (1) if unsellable, no
exit; (2) if the position is curve-venue and not yet price-synced, no exit
— with no time limit, whatever the position's age (the 3-second
`is_waiting_for_price_sync` helper is never consulted); (3) if the price is
at or below the stop-loss level, `StopLoss`; (4) otherwise the
class-specific take-profit logic. -/
theorem check_exit_order_no_time_gate (p : Position) (cp : ℚ) :
    (p.is_unsellable = true → p.check_exit cp = none) ∧
    (p.is_unsellable = false → p.needs_price_sync = true →
      p.check_exit cp = none) ∧
    (p.is_unsellable = false → p.needs_price_sync = false →
      cp ≤ p.stop_loss_price → p.check_exit cp = some .stopLoss) ∧
    (p.is_unsellable = false → p.needs_price_sync = false →
      p.stop_loss_price < cp → p.is_ninja = false →
      p.check_exit cp =
        if cp ≥ p.take_profit_price then some .takeProfit else none) := by
  refine ⟨?_, ?_, ?_, ?_⟩
  · intro hu
    simp [Position.check_exit, hu]
  · intro hu hn
    simp [Position.check_exit, hu, hn]
  · intro hu hn hle
    simp [Position.check_exit, hu, hn, hle]
  · intro hu hn hgt hnj
    simp [Position.check_exit, hu, hn, not_le.mpr hgt, hnj]

/-- Witness for C4 (amended): the pre-sync gate and the stop-loss check at
concrete positions — the unsynced curve position gives no exit, and the
synced one stop-losses at 1/2. -/
theorem check_exit_order_no_time_gate_witness :
    sample_open_position.check_exit (1 / 2) = none ∧
    sample_synced_ninja_position.check_exit (1 / 2) = some .stopLoss := by
  constructor
  · exact (check_exit_order_no_time_gate sample_open_position (1 / 2)).2.1
      rfl rfl
  · exact (check_exit_order_no_time_gate sample_synced_ninja_position
      (1 / 2)).2.2.1 rfl rfl
      (by norm_num [sample_synced_ninja_position, sample_open_position])

/-- C1: when the registry already holds a position for the signal's token,
`execute_buy` returns the "Already have position" error result — success
false, no transaction signature, no token amount — and leaves the whole
trader state (registry and prepared-TX cache) untouched, whatever the
attempt environments would have provided; the registry itself, being a map
keyed by token identifier, holds at most one position per token. -/
theorem execute_buy_refuses_duplicate (cfg : Config) (mono : ℕ) (now : ℤ)
    (signal : SpectreSignal) (s : TraderState)
    (pf_envs : List SpectreTrader.PfAttemptEnv)
    (jup_envs : List SpectreTrader.JupAttemptEnv)
    (h : PositionManager.has_position s.positions signal.token_mint = true) :
    SpectreTrader.execute_buy cfg mono now signal s pf_envs jup_envs =
      .ok (SpectreTrader.create_error_result cfg signal .alreadyHavePosition 1
        none, s) ∧
    (SpectreTrader.create_error_result cfg signal .alreadyHavePosition 1
      none).success = false ∧
    (SpectreTrader.create_error_result cfg signal .alreadyHavePosition 1
      none).error = some .alreadyHavePosition ∧
    (SpectreTrader.create_error_result cfg signal .alreadyHavePosition 1
      none).tx_signature = none ∧
    (SpectreTrader.create_error_result cfg signal .alreadyHavePosition 1
      none).amount_tokens = none := by
  refine ⟨?_, rfl, rfl, rfl, rfl⟩
  simp [SpectreTrader.execute_buy, h]

/-- Witness for C1: the state already holding the `"mintA"` position makes
`execute_buy` return the duplicate-position error and keeps the state. -/
theorem execute_buy_refuses_duplicate_witness :
    PositionManager.has_position sample_state.positions
      sample_consensus_signal.token_mint = true ∧
    SpectreTrader.execute_buy sample_config 0 0 sample_consensus_signal
      sample_state [] [] =
      .ok (SpectreTrader.create_error_result sample_config
        sample_consensus_signal .alreadyHavePosition 1 none, sample_state) :=
  ⟨rfl, (execute_buy_refuses_duplicate sample_config 0 0
    sample_consensus_signal sample_state [] [] rfl).1⟩

/-- C8: in the aggregator path, when the signal carries a positive
reference entry price and the quote-implied price of the first attempt
exceeds it by strictly more than 30 percent, `execute_buy_jupiter` returns
the "price jumped" failure immediately — success false, nothing signed or
submitted, whatever environments the remaining attempts would have had —
and the trader state (in particular the position registry) is unchanged. -/
theorem execute_buy_jupiter_price_jump_veto (cfg : Config) (now : ℤ)
    (signal : SpectreSignal) (s : TraderState)
    (e : SpectreTrader.JupAttemptEnv)
    (rest : List SpectreTrader.JupAttemptEnv) (sp : ℚ)
    (q : SpectreTrader.JupQuote)
    (hsp : signal.entry_price_usd = some sp) (hsp0 : 0 < sp)
    (hq : e.quote = some q) (hoa : 0 < q.out_amount)
    (hjump : (cfg.trade_amount_sol / (q.out_amount : ℚ) - sp) / sp * 100 >
      SpectreTrader.MAX_PRICE_CHANGE_PERCENT) :
    SpectreTrader.execute_buy_jupiter cfg now signal s (e :: rest) =
      (SpectreTrader.price_jump_result cfg signal 1
        (some (cfg.trade_amount_sol / (q.out_amount : ℚ)))
        (some ((cfg.trade_amount_sol / (q.out_amount : ℚ) - sp) / sp * 100))
        ((cfg.trade_amount_sol / (q.out_amount : ℚ) - sp) / sp * 100), s) ∧
    (SpectreTrader.price_jump_result cfg signal 1
        (some (cfg.trade_amount_sol / (q.out_amount : ℚ)))
        (some ((cfg.trade_amount_sol / (q.out_amount : ℚ) - sp) / sp * 100))
        ((cfg.trade_amount_sol / (q.out_amount : ℚ) - sp) / sp * 100)).success
      = false ∧
    (SpectreTrader.price_jump_result cfg signal 1
        (some (cfg.trade_amount_sol / (q.out_amount : ℚ)))
        (some ((cfg.trade_amount_sol / (q.out_amount : ℚ) - sp) / sp * 100))
        ((cfg.trade_amount_sol / (q.out_amount : ℚ) - sp) / sp * 100)).error
      = some (.priceJumped
        ((cfg.trade_amount_sol / (q.out_amount : ℚ) - sp) / sp * 100)
        SpectreTrader.MAX_PRICE_CHANGE_PERCENT) ∧
    (SpectreTrader.price_jump_result cfg signal 1
        (some (cfg.trade_amount_sol / (q.out_amount : ℚ)))
        (some ((cfg.trade_amount_sol / (q.out_amount : ℚ) - sp) / sp * 100))
        ((cfg.trade_amount_sol / (q.out_amount : ℚ) - sp) / sp *
          100)).tx_signature = none := by
  refine ⟨?_, rfl, rfl, rfl⟩
  have hcp : SpectreTrader.jup_current_price cfg q.out_amount =
      some (cfg.trade_amount_sol / (q.out_amount : ℚ)) := by
    unfold SpectreTrader.jup_current_price
    rw [if_pos hoa]
  have hpcp : SpectreTrader.jup_price_change_percent signal
      (some (cfg.trade_amount_sol / (q.out_amount : ℚ))) =
      some ((cfg.trade_amount_sol / (q.out_amount : ℚ) - sp) / sp * 100) := by
    unfold SpectreTrader.jup_price_change_percent
    rw [hsp]
    simp only [if_pos hsp0]
  have hattempt : SpectreTrader.jup_attempt cfg now signal 1 e s =
      .done (SpectreTrader.price_jump_result cfg signal 1
        (some (cfg.trade_amount_sol / (q.out_amount : ℚ)))
        (some ((cfg.trade_amount_sol / (q.out_amount : ℚ) - sp) / sp * 100))
        ((cfg.trade_amount_sol / (q.out_amount : ℚ) - sp) / sp * 100)) s := by
    unfold SpectreTrader.jup_attempt
    rw [hq]
    simp only [hcp, hpcp]
    rw [if_pos hjump]
  unfold SpectreTrader.execute_buy_jupiter SpectreTrader.execute_buy_jupiter_loop
  rw [hattempt]

/-- Witness for C8: the quote implying 0.02 against the reference 0.01
(+100% > 30%) makes the aggregator buy abort with the price-jump result and
leave the empty state untouched. -/
theorem execute_buy_jupiter_price_jump_veto_witness :
    SpectreTrader.execute_buy_jupiter sample_config 0 sample_consensus_signal
      empty_state [sample_jump_env] =
      (SpectreTrader.price_jump_result sample_config sample_consensus_signal 1
        (some (sample_config.trade_amount_sol / ((50 : ℕ) : ℚ)))
        (some ((sample_config.trade_amount_sol / ((50 : ℕ) : ℚ) - 1 / 100) /
          (1 / 100) * 100))
        ((sample_config.trade_amount_sol / ((50 : ℕ) : ℚ) - 1 / 100) /
          (1 / 100) * 100), empty_state) :=
  (execute_buy_jupiter_price_jump_veto sample_config 0
    sample_consensus_signal empty_state sample_jump_env [] (1 / 100)
    { out_amount := 50 } rfl (by norm_num) rfl (by norm_num)
    (by norm_num [SpectreTrader.MAX_PRICE_CHANGE_PERCENT,
      sample_config])).1

/-- Case analysis of the submit tail of a Jupiter attempt: it retries with
a failure result, or registers the position built from the actual entry
price and returns the success result. -/
theorem jup_attempt_submit_cases (cfg : Config) (now : ℤ)
    (signal : SpectreSignal) (attempt : ℕ)
    (e : SpectreTrader.JupAttemptEnv) (s : TraderState) (out_amount : ℕ)
    (cp pcp : Option ℚ) :
    (∃ err, SpectreTrader.jup_attempt_submit cfg now signal attempt e s
        out_amount cp pcp = .retry err ∧ err.success = false) ∨
    (∃ bundle_id, e.submit = some bundle_id ∧
      SpectreTrader.jup_attempt_submit cfg now signal attempt e s out_amount
        cp pcp = .done
        (SpectreTrader.jup_success_result cfg signal attempt out_amount
          (cp.getD (signal.entry_price_usd.getD 0)) bundle_id cp pcp)
        { s with positions := (PositionManager.add_position s.positions
            (Position.new signal.token_mint signal.token_symbol
              (cp.getD (signal.entry_price_usd.getD 0)) out_amount
              cfg.trade_amount_sol signal.stop_loss_percent
              signal.take_profit_percent bundle_id false now)) }) := by
  unfold SpectreTrader.jup_attempt_submit
  cases hb : e.blockhash_ok with
  | false =>
    exact Or.inl ⟨SpectreTrader.create_error_result cfg signal
      .blockhashFailed attempt cp, by simp, rfl⟩
  | true =>
    cases hw : e.swap_tx_ok with
    | false =>
      exact Or.inl ⟨SpectreTrader.create_error_result cfg signal
        .swapTxFailed attempt cp, by simp, rfl⟩
    | true =>
      cases hsub : e.submit with
      | none =>
        exact Or.inl ⟨SpectreTrader.create_error_result cfg signal
          .txFailed attempt cp, by simp, rfl⟩
      | some bundle_id =>
        exact Or.inr ⟨bundle_id, rfl, by simp⟩

/-- Case analysis of one Jupiter attempt: it retries with a failure result,
returns the price-jump failure leaving the state unchanged, or registers
the new position and returns the success result. -/
theorem jup_attempt_cases (cfg : Config) (now : ℤ) (signal : SpectreSignal)
    (attempt : ℕ) (e : SpectreTrader.JupAttemptEnv) (s : TraderState) :
    (∃ err, SpectreTrader.jup_attempt cfg now signal attempt e s =
        .retry err ∧ err.success = false) ∨
    (∃ r, SpectreTrader.jup_attempt cfg now signal attempt e s =
        .done r s ∧ r.success = false) ∨
    (∃ q bundle_id, e.quote = some q ∧
      SpectreTrader.jup_attempt cfg now signal attempt e s = .done
        (SpectreTrader.jup_success_result cfg signal attempt q.out_amount
          ((SpectreTrader.jup_current_price cfg q.out_amount).getD
            (signal.entry_price_usd.getD 0)) bundle_id
          (SpectreTrader.jup_current_price cfg q.out_amount)
          (SpectreTrader.jup_price_change_percent signal
            (SpectreTrader.jup_current_price cfg q.out_amount)))
        { s with positions := (PositionManager.add_position s.positions
            (Position.new signal.token_mint signal.token_symbol
              ((SpectreTrader.jup_current_price cfg q.out_amount).getD
                (signal.entry_price_usd.getD 0))
              q.out_amount cfg.trade_amount_sol signal.stop_loss_percent
              signal.take_profit_percent bundle_id false now)) }) := by
  cases hq : e.quote with
  | none =>
    exact Or.inl ⟨SpectreTrader.create_error_result cfg signal .quoteFailed
      attempt none, by simp [SpectreTrader.jup_attempt, hq], rfl⟩
  | some q =>
    have hform : SpectreTrader.jup_attempt cfg now signal attempt e s =
        match SpectreTrader.jup_price_change_percent signal
          (SpectreTrader.jup_current_price cfg q.out_amount) with
        | some change =>
          if change > SpectreTrader.MAX_PRICE_CHANGE_PERCENT then
            .done (SpectreTrader.price_jump_result cfg signal attempt
              (SpectreTrader.jup_current_price cfg q.out_amount)
              (SpectreTrader.jup_price_change_percent signal
                (SpectreTrader.jup_current_price cfg q.out_amount)) change) s
          else SpectreTrader.jup_attempt_submit cfg now signal attempt e s
            q.out_amount (SpectreTrader.jup_current_price cfg q.out_amount)
            (SpectreTrader.jup_price_change_percent signal
              (SpectreTrader.jup_current_price cfg q.out_amount))
        | none => SpectreTrader.jup_attempt_submit cfg now signal attempt e s
            q.out_amount (SpectreTrader.jup_current_price cfg q.out_amount)
            (SpectreTrader.jup_price_change_percent signal
              (SpectreTrader.jup_current_price cfg q.out_amount)) := by
      unfold SpectreTrader.jup_attempt
      rw [hq]
    rw [hform]
    cases hpcp : SpectreTrader.jup_price_change_percent signal
        (SpectreTrader.jup_current_price cfg q.out_amount) with
    | some change =>
      dsimp only
      by_cases hch : change > SpectreTrader.MAX_PRICE_CHANGE_PERCENT
      · rw [if_pos hch]
        exact Or.inr (Or.inl ⟨_, rfl, rfl⟩)
      · rw [if_neg hch]
        rcases jup_attempt_submit_cases cfg now signal attempt e s
          q.out_amount (SpectreTrader.jup_current_price cfg q.out_amount)
          (SpectreTrader.jup_price_change_percent signal
            (SpectreTrader.jup_current_price cfg q.out_amount)) with
          ⟨err, hh, hf⟩ | ⟨bundle_id, hsub, hh⟩
        · exact Or.inl ⟨err, by rw [← hpcp]; exact hh, hf⟩
        · exact Or.inr (Or.inr ⟨q, bundle_id, rfl,
            by rw [← hpcp]; exact hh⟩)
    | none =>
      dsimp only
      rcases jup_attempt_submit_cases cfg now signal attempt e s
        q.out_amount (SpectreTrader.jup_current_price cfg q.out_amount)
        none with ⟨err, hh, hf⟩ | ⟨bundle_id, hsub, hh⟩
      · exact Or.inl ⟨err, hh, hf⟩
      · refine Or.inr (Or.inr ⟨q, bundle_id, rfl, ?_⟩)
        rw [hpcp]
        exact hh

/-- Whatever attempt the Jupiter loop succeeds on, the registered position
is aggregator-venue, not price-synced, and priced from the quote. -/
theorem jup_loop_success_registers (cfg : Config) (now : ℤ)
    (signal : SpectreSignal) (envs : List SpectreTrader.JupAttemptEnv) :
    ∀ (s : TraderState) (attempt : ℕ) (r : TradeResult) (s' : TraderState),
      SpectreTrader.execute_buy_jupiter_loop cfg now signal s envs attempt =
        (r, s') →
      r.success = true →
      ∃ p, s'.positions signal.token_mint = some p ∧
        p.is_pumpfun = false ∧ p.price_synced = false ∧
        p.needs_price_sync = false ∧
        ∀ oa : ℕ, r.amount_tokens = some (oa : ℚ) → 0 < oa →
          p.entry_price = cfg.trade_amount_sol / (oa : ℚ) := by
  induction envs with
  | nil =>
    intro s attempt r s' heq hs
    exfalso
    simp only [SpectreTrader.execute_buy_jupiter_loop] at heq
    rw [Prod.mk.injEq] at heq
    obtain ⟨h1, h2⟩ := heq
    rw [← h1] at hs
    simp [SpectreTrader.create_error_result] at hs
  | cons e rest ih =>
    intro s attempt r s' heq hs
    rcases jup_attempt_cases cfg now signal attempt e s with
      ⟨err, hh, hf⟩ | ⟨r0, hh, hf⟩ | ⟨q, bundle_id, hq, hh⟩
    · simp only [SpectreTrader.execute_buy_jupiter_loop, hh] at heq
      by_cases hre : rest.isEmpty
      · rw [if_pos hre] at heq
        rw [Prod.mk.injEq] at heq
        obtain ⟨h1, h2⟩ := heq
        rw [← h1, hf] at hs
        exact absurd hs (by simp)
      · rw [if_neg hre] at heq
        exact ih s (attempt + 1) r s' heq hs
    · simp only [SpectreTrader.execute_buy_jupiter_loop, hh] at heq
      rw [Prod.mk.injEq] at heq
      obtain ⟨h1, h2⟩ := heq
      rw [← h1, hf] at hs
      exact absurd hs (by simp)
    · simp only [SpectreTrader.execute_buy_jupiter_loop, hh] at heq
      rw [Prod.mk.injEq] at heq
      obtain ⟨h1, h2⟩ := heq
      refine ⟨Position.new signal.token_mint signal.token_symbol
        ((SpectreTrader.jup_current_price cfg q.out_amount).getD
          (signal.entry_price_usd.getD 0)) q.out_amount cfg.trade_amount_sol
        signal.stop_loss_percent signal.take_profit_percent bundle_id false
        now, ?_, rfl, rfl, rfl, ?_⟩
      · rw [← h2]
        simp [PositionManager.add_position, PositionManager.insert,
          Position.new, Position.new_with_signal_type]
      · intro oa hoa hpos
        rw [← h1] at hoa
        simp only [SpectreTrader.jup_success_result, Option.some.injEq,
          Nat.cast_inj] at hoa
        subst hoa
        simp [Position.new, Position.new_with_signal_type,
          SpectreTrader.jup_current_price, hpos]

/-- C5 (amended): on a successful aggregator (consensus) buy, the
registered Position uses the entry price computed from the quote (trade
amount divided by `out_amount`, whenever the quote returned a positive
`out_amount`), is flagged as the aggregator venue (`is_pumpfun = false`),
and has `price_synced = false` — not `true` as claimed; since price-syncing
applies only to curve-venue positions, `needs_price_sync` is nonetheless
false, so the position is never treated as awaiting a sync. -/
theorem execute_buy_jupiter_success_position (cfg : Config) (now : ℤ)
    (signal : SpectreSignal) (s : TraderState)
    (envs : List SpectreTrader.JupAttemptEnv) (r : TradeResult)
    (s' : TraderState)
    (h : SpectreTrader.execute_buy_jupiter cfg now signal s envs = (r, s'))
    (hs : r.success = true) :
    ∃ p, s'.positions signal.token_mint = some p ∧
      p.is_pumpfun = false ∧ p.price_synced = false ∧
      p.needs_price_sync = false ∧
      ∀ oa : ℕ, r.amount_tokens = some (oa : ℚ) → 0 < oa →
        p.entry_price = cfg.trade_amount_sol / (oa : ℚ) :=
  jup_loop_success_registers cfg now signal envs s 1 r s' h hs

/-- The concrete aggregator run used by the C5 counterexample and witness:
quote of 100 units against reference price 0.01 (no jump), successful
submission as `"bundle1"`. -/
theorem sample_jupiter_run :
    SpectreTrader.execute_buy_jupiter sample_config 0 sample_consensus_signal
      empty_state [sample_jup_env] =
      (SpectreTrader.jup_success_result sample_config sample_consensus_signal
        1 100 (1 / 100) "bundle1" (some (1 / 100)) (some 0),
       { empty_state with positions := (PositionManager.add_position
          empty_state.positions (Position.new "mintA" "AAA" (1 / 100) 100
            sample_config.trade_amount_sol 25 50 "bundle1" false 0)) }) := by
  have hcp : SpectreTrader.jup_current_price sample_config 100 =
      some (1 / 100) := by
    unfold SpectreTrader.jup_current_price
    rw [if_pos (by norm_num)]
    norm_num [sample_config]
  have hpcp : SpectreTrader.jup_price_change_percent sample_consensus_signal
      (some (1 / 100)) = some 0 := by
    unfold SpectreTrader.jup_price_change_percent
    rw [show sample_consensus_signal.entry_price_usd = some (1 / 100)
      from rfl]
    dsimp only
    rw [if_pos (by norm_num : (0 : ℚ) < 1 / 100)]
    norm_num
  have hsubmit : SpectreTrader.jup_attempt_submit sample_config 0
      sample_consensus_signal 1 sample_jup_env empty_state 100
      (some (1 / 100)) (some 0) =
      .done (SpectreTrader.jup_success_result sample_config
        sample_consensus_signal 1 100 (1 / 100) "bundle1" (some (1 / 100))
        (some 0))
      { empty_state with positions := (PositionManager.add_position
          empty_state.positions (Position.new "mintA" "AAA" (1 / 100) 100
            sample_config.trade_amount_sol 25 50 "bundle1" false 0)) } := by
    unfold SpectreTrader.jup_attempt_submit
    rfl
  have hattempt : SpectreTrader.jup_attempt sample_config 0
      sample_consensus_signal 1 sample_jup_env empty_state =
      .done (SpectreTrader.jup_success_result sample_config
        sample_consensus_signal 1 100 (1 / 100) "bundle1" (some (1 / 100))
        (some 0))
      { empty_state with positions := (PositionManager.add_position
          empty_state.positions (Position.new "mintA" "AAA" (1 / 100) 100
            sample_config.trade_amount_sol 25 50 "bundle1" false 0)) } := by
    unfold SpectreTrader.jup_attempt
    rw [show sample_jup_env.quote = some { out_amount := 100 } from rfl]
    dsimp only
    rw [hcp, hpcp]
    dsimp only
    rw [if_neg (by norm_num [SpectreTrader.MAX_PRICE_CHANGE_PERCENT] :
      ¬ (0 : ℚ) > SpectreTrader.MAX_PRICE_CHANGE_PERCENT)]
    exact hsubmit
  unfold SpectreTrader.execute_buy_jupiter
    SpectreTrader.execute_buy_jupiter_loop
  rw [hattempt]

/-- Counterexample for C5: the concrete successful aggregator buy registers
its position with `price_synced = false`, not `true` as the claim states
(`Position::new` always initializes `price_synced` to false and the
aggregator path never syncs). -/
theorem jupiter_success_not_price_synced :
    (SpectreTrader.execute_buy_jupiter sample_config 0
      sample_consensus_signal empty_state [sample_jup_env]).1.success =
      true ∧
    ((SpectreTrader.execute_buy_jupiter sample_config 0
      sample_consensus_signal empty_state
      [sample_jup_env]).2.positions "mintA").map Position.price_synced =
      some false := by
  rw [sample_jupiter_run]
  constructor
  · rfl
  · simp [PositionManager.add_position, PositionManager.insert,
      Position.new, Position.new_with_signal_type]

/-- Witness for C5 (amended): the registered position of the concrete
successful run is aggregator-venue, unsynced, and priced at 1/100 = trade
amount over the 100 quoted units. -/
theorem execute_buy_jupiter_success_position_witness :
    ∃ p, ({ empty_state with positions := (PositionManager.add_position
        empty_state.positions (Position.new "mintA" "AAA" (1 / 100) 100
          sample_config.trade_amount_sol 25 50 "bundle1" false 0)) }
        : TraderState).positions "mintA" = some p ∧
      p.is_pumpfun = false ∧ p.price_synced = false ∧
      p.needs_price_sync = false ∧
      ∀ oa : ℕ, (SpectreTrader.jup_success_result sample_config
          sample_consensus_signal 1 100 (1 / 100) "bundle1" (some (1 / 100))
          (some 0)).amount_tokens = some (oa : ℚ) → 0 < oa →
        p.entry_price = sample_config.trade_amount_sol / (oa : ℚ) :=
  execute_buy_jupiter_success_position sample_config 0
    sample_consensus_signal empty_state [sample_jup_env] _ _
    sample_jupiter_run rfl

end Spectre

end Tradooor
